import Mathlib

/-!
# Chat widget and stub responder: shallow embedding

This file embeds the two source files of the repository:

* the Next.js route handler (the Responder): a stateless function from the
  optional `message` query parameter to a JSON body with a status code;
* the `Chatbot` widget component: transcript state, input buffer, the
  awaiting-reply flag (`isTyping`), and the `handleSend` operation, whose
  asynchronous exchange is modelled by an explicit fetch-outcome datatype
  and an explicit wall clock (`Date.now` readings supplied by the
  environment).
-/

namespace Js

/-- JavaScript `String.prototype.toLowerCase` on the ASCII texts this
program compares: lowercase each character. -/
def jsToLower (s : String) : String :=
  ⟨s.data.map Char.toLower⟩

/-- JavaScript `String.prototype.trim`: strip leading and trailing
whitespace. -/
def jsTrim (s : String) : String :=
  ⟨((s.data.dropWhile Char.isWhitespace).reverse.dropWhile Char.isWhitespace).reverse⟩

end Js

open Js

namespace ChatApi

/-- The JSON body and status code produced by one `NextResponse.json` call:
`error` and `response` are the optional string fields of the body. -/
structure ApiResponse where
  status : Nat
  error : Option String
  response : Option String
deriving DecidableEq, Repr

/-- The GET route handler.  `message` is the `message` query parameter
(`none` when absent).  The handler rejects an absent or empty parameter,
then lowercases the text and dispatches by exact match. -/
def GET (message : Option String) : ApiResponse :=
  match message with
  | none => { status := 400, error := some "Missing message query", response := none }
  | some m =>
    if m = "" then
      { status := 400, error := some "Missing message query", response := none }
    else
      let lower := jsToLower m
      if lower = "hello" then
        { status := 200, error := none, response := some "Hello! How can I help you today?" }
      else if lower = "what is your name?" then
        { status := 200, error := none, response := some "I\x27m a chatbot built by MAS." }
      else if lower = "error" then
        { status := 500, error := some "Something went wrong", response := none }
      else
        { status := 200, error := none, response := some "Sorry, I didn\x27t understand that." }

end ChatApi

namespace Widget

/-- The `MessageSender` union type of the component. -/
inductive MessageSender
  | user
  | bot
  | error
  | typing
deriving DecidableEq, Repr

/-- One transcript entry.  `id` and `timestamp` are the `Date.now` reading
at creation time (the source stores a `Date`; we keep the millisecond
count). -/
structure Message where
  id : Nat
  text : String
  sender : MessageSender
  timestamp : Nat
deriving DecidableEq, Repr

/-- The widget state: the transcript, the input buffer, the awaiting-reply
flag, and the current `Date.now` reading (advanced by the environment,
never by the widget). -/
structure ChatState where
  messages : List Message
  input : String
  isTyping : Bool
  now : Nat
deriving DecidableEq, Repr

/-- `addMessage`: appends one entry whose `id` and `timestamp` are the
current `Date.now` reading. -/
def addMessage (s : ChatState) (text : String) (sender : MessageSender) : ChatState :=
  { s with
    messages := s.messages ++ [{ id := s.now, text := text, sender := sender, timestamp := s.now }] }

/-- A JavaScript thrown value as the catch clause distinguishes it:
either an `Error` instance carrying a message (this includes the
`TypeError` thrown by `fetch` on network failure and the `SyntaxError`
thrown by `json()` on a malformed body), or any non-`Error` value. -/
inductive Thrown
  | errInstance (message : String)
  | nonError
deriving DecidableEq, Repr

/-- The result of reading the response body as JSON: the parse may fail
(the rejection is an `Error` instance with some message), or produce an
object whose `error` and `response` fields are each possibly absent. -/
inductive JsonBody
  | malformed (message : String)
  | parsed (error : Option String) (response : Option String)
deriving DecidableEq, Repr

/-- The settled outcome of the `fetch` call: the promise rejects with a
thrown value, or resolves to a response with an `ok` flag and a body. -/
inductive FetchOutcome
  | failure (thrown : Thrown)
  | success (ok : Bool) (body : JsonBody)
deriving DecidableEq, Repr

/-- JavaScript truthiness of a possibly absent string field: absent
(`undefined`) and the empty string are falsy. -/
def jsTruthy : Option String → Bool
  | none => false
  | some s => s != ""

/-- The text appended by the catch clause:
`err instanceof Error ? err.message : fallback`. -/
def catchText : Thrown → String
  | .errInstance m => m
  | .nonError => "Sorry, something went wrong. Please try again."

/-- One observable side effect of `handleSend`, in the order the source
performs them: a transcript append, an input-buffer write, a flag write,
or the outgoing request with its sole payload. -/
inductive Effect
  | appendMessage (text : String) (sender : MessageSender)
  | setInput (value : String)
  | setTyping (value : Bool)
  | request (payload : String)
deriving DecidableEq, Repr

/-- The effects of the try/catch/finally part of `handleSend`, given the
settled fetch outcome.  A rejected `fetch`, a malformed body, and the
explicit `throw new Error(errorData.error || ...)` on a non-ok response
all land in the catch clause; an ok response with a truthy `error` field
appends it as an `error` entry, otherwise the `response` field is
appended as a `bot` entry.  The finally clause clears the flag last. -/
def exchangeEffects (outcome : FetchOutcome) : List Effect :=
  let caught (t : Thrown) : List Effect := [.appendMessage (catchText t) .error]
  let tryPart : List Effect :=
    match outcome with
    | .failure t => caught t
    | .success ok body =>
      if ok then
        match body with
        | .malformed pm => caught (.errInstance pm)
        | .parsed err resp =>
          if jsTruthy err then [.appendMessage (err.getD "") .error]
          else [.appendMessage (resp.getD "") .bot]
      else
        match body with
        | .malformed pm => caught (.errInstance pm)
        | .parsed err _ =>
          caught (.errInstance (if jsTruthy err then err.getD "" else "Failed to get response"))
  tryPart ++ [.setTyping false]

/-- The full effect trace of one `handleSend` call on input buffer `inp`
whose fetch settles with `outcome`: the guard returns early on an input
that trims to empty; otherwise the user append, the input clear, the flag
set and the request come first, in source order, then the exchange. -/
def handleSendEffects (inp : String) (outcome : FetchOutcome) : List Effect :=
  let trimmedInput := jsTrim inp
  if trimmedInput = "" then []
  else
    [.appendMessage trimmedInput .user, .setInput "", .setTyping true, .request trimmedInput]
      ++ exchangeEffects outcome

/-- How each effect acts on the widget state (a request leaves the state
unchanged; it only names the payload sent out). -/
def applyEffect (s : ChatState) : Effect → ChatState
  | .appendMessage t sd => addMessage s t sd
  | .setInput v => { s with input := v }
  | .setTyping b => { s with isTyping := b }
  | .request _ => s

/-- State reached once a pending exchange settles with `outcome`. -/
def exchangeRun (s : ChatState) (outcome : FetchOutcome) : ChatState :=
  (exchangeEffects outcome).foldl applyEffect s

/-- The synchronous prefix of `handleSend`, up to and including issuing
the request: returns the new state and the request payload (`none` when
the guard returned early and no request was issued). -/
def handleSendStart (s : ChatState) : ChatState × Option String :=
  let trimmedInput := jsTrim s.input
  if trimmedInput = "" then (s, none)
  else
    let s1 := addMessage s trimmedInput .user
    ({ s1 with input := "", isTyping := true }, some trimmedInput)

/-- One whole `handleSend` call, from invocation to settlement: the
synchronous prefix, then (when a request was issued) the exchange, with
the wall clock advanced to `replyNow` while the request was in flight. -/
def handleSendRun (s : ChatState) (outcome : FetchOutcome) (replyNow : Nat) : ChatState :=
  match handleSendStart s with
  | (s1, none) => s1
  | (s1, some _) => exchangeRun { s1 with now := replyNow } outcome

/-- The widget event loop.  The clock only moves forward; the input
control only accepts edits while the flag is down (it is disabled
otherwise); `handleSend` may be invoked at any time (the send button and
the Enter key are disabled while the flag is up, but the model lets the
call happen and the theorems show it is then a no-op); a pending exchange
settles with some outcome while the flag is up. -/
inductive Step : ChatState → ChatState → Prop
  | tick (s : ChatState) (n : Nat) (h : s.now ≤ n) : Step s { s with now := n }
  | edit (s : ChatState) (v : String) (h : s.isTyping = false) : Step s { s with input := v }
  | send (s : ChatState) : Step s (handleSendStart s).1
  | settle (s : ChatState) (o : FetchOutcome) (h : s.isTyping = true) : Step s (exchangeRun s o)

/-- The freshly mounted widget: empty transcript, empty input buffer,
flag down, at an arbitrary initial clock reading. -/
def initState (n0 : Nat) : ChatState :=
  { messages := [], input := "", isTyping := false, now := n0 }

/-- States the widget can actually be in. -/
def Reachable (s : ChatState) : Prop :=
  ∃ n0, Relation.ReflTransGen Step (initState n0) s

/-- Derived: the text of the single entry the settled exchange appends. -/
def replyText : FetchOutcome → String
  | .failure t => catchText t
  | .success ok body =>
    if ok then
      match body with
      | .malformed pm => pm
      | .parsed err resp => if jsTruthy err then err.getD "" else resp.getD ""
    else
      match body with
      | .malformed pm => pm
      | .parsed err _ => if jsTruthy err then err.getD "" else "Failed to get response"

/-- Derived: the sender of the single entry the settled exchange appends. -/
def replySender : FetchOutcome → MessageSender
  | .success true (.parsed err _) => if jsTruthy err then .error else .bot
  | _ => .error

theorem replySender_bot_or_error (o : FetchOutcome) :
    replySender o = MessageSender.bot ∨ replySender o = MessageSender.error := by
  rcases o with t | ⟨ok, body⟩
  · exact Or.inr rfl
  · rcases body with pm | ⟨e, r⟩
    · cases ok <;> exact Or.inr rfl
    · cases ok
      · exact Or.inr rfl
      · by_cases hje : jsTruthy e <;> simp [replySender, hje]

/-- Every settled exchange appends exactly one entry, stamped with the
current clock reading, and lowers the flag. -/
theorem exchangeRun_eq (s : ChatState) (o : FetchOutcome) :
    exchangeRun s o = { s with
      messages := s.messages ++
        [{ id := s.now, text := replyText o, sender := replySender o, timestamp := s.now }],
      isTyping := false } := by
  rcases o with t | ⟨ok, body⟩
  · simp [exchangeRun, exchangeEffects, applyEffect, addMessage, replyText, replySender]
  · rcases body with pm | ⟨e, r⟩
    · cases ok <;>
        simp [exchangeRun, exchangeEffects, applyEffect, addMessage, replyText, replySender,
          catchText]
    · cases ok <;> by_cases hje : jsTruthy e <;>
        simp [exchangeRun, exchangeEffects, applyEffect, addMessage, replyText, replySender,
          catchText, hje]

/-- A whole `handleSend` call on a non-blank input buffer: the user entry
at the invocation clock, the reply entry at the settlement clock, the
input buffer cleared, the flag lowered. -/
theorem handleSendRun_eq (s : ChatState) (o : FetchOutcome) (n : Nat)
    (h : jsTrim s.input ≠ "") :
    handleSendRun s o n = { s with
      messages := s.messages ++
        [{ id := s.now, text := jsTrim s.input, sender := .user, timestamp := s.now },
         { id := n, text := replyText o, sender := replySender o, timestamp := n }],
      input := "", isTyping := false, now := n } := by
  simp [handleSendRun, handleSendStart, h, exchangeRun_eq, addMessage]

end Widget

namespace Widget

theorem jsTrim_blank : jsTrim "" = "" := rfl

/-- Invariant: whenever the awaiting-reply flag is up, the input buffer is
empty — `handleSend` cleared it when raising the flag, and the disabled
input control admits no edit until the flag is down again. -/
theorem reachable_typing_input_empty {s : ChatState} (hr : Reachable s) :
    s.isTyping = true → s.input = "" := by
  obtain ⟨n0, hsteps⟩ := hr
  induction hsteps with
  | refl => intro h; simp [initState] at h
  | tail hab hbc ih =>
    rename_i b c
    cases hbc with
    | tick n h => intro ht; exact ih ht
    | edit v h =>
      intro ht
      have hbt : b.isTyping = true := ht
      rw [h] at hbt
      cases hbt
    | send =>
      intro ht
      by_cases hb : jsTrim b.input = ""
      · rw [show (handleSendStart b).1 = b from by simp [handleSendStart, hb]] at ht ⊢
        exact ih ht
      · simp [handleSendStart, hb]
    | settle o h =>
      intro ht
      rw [exchangeRun_eq] at ht
      exact Bool.noConfusion (show (false : Bool) = true from ht)

end Widget

namespace ChatApi

/-- C1: for every non-empty message text, the handler lowercases the text
and dispatches by exact match: "hello" yields a success (200) response
with the greeting; "what is your name?" yields the name reply; "error"
yields status 500 with error payload "Something went wrong"; any other
string yields the 200 default reply. -/
theorem GET_lowercase_dispatch (m : String) (h : m ≠ "") :
    (jsToLower m = "hello" →
      GET (some m) =
        { status := 200, error := none, response := some "Hello! How can I help you today?" }) ∧
    (jsToLower m = "what is your name?" →
      GET (some m) =
        { status := 200, error := none, response := some "I\x27m a chatbot built by MAS." }) ∧
    (jsToLower m = "error" →
      GET (some m) = { status := 500, error := some "Something went wrong", response := none }) ∧
    (jsToLower m ≠ "hello" → jsToLower m ≠ "what is your name?" → jsToLower m ≠ "error" →
      GET (some m) =
        { status := 200, error := none, response := some "Sorry, I didn\x27t understand that." }) := by
  refine ⟨fun h1 => ?_, fun h1 => ?_, fun h1 => ?_, fun h1 h2 h3 => ?_⟩ <;>
    simp [GET, h, *]

/-- C1 witness: the dispatch evaluated at the concrete text "HELLO". -/
theorem GET_lowercase_dispatch_witness :
    GET (some "HELLO") =
      { status := 200, error := none, response := some "Hello! How can I help you today?" } :=
  (GET_lowercase_dispatch "HELLO" (by decide)).1 (by decide)

/-- C7: an absent or empty message parameter is rejected with status 400,
error payload "Missing message query", and no response string. -/
theorem GET_missing_message :
    GET none = { status := 400, error := some "Missing message query", response := none } ∧
    GET (some "") = { status := 400, error := some "Missing message query", response := none } :=
  ⟨rfl, by decide⟩

end ChatApi

namespace Widget

/-- C9: submitting a string that trims to empty is a no-op: the state is
unchanged, no request is issued, and the call has no effects at all. -/
theorem submit_blank_noop (s : ChatState) (o : FetchOutcome) (h : jsTrim s.input = "") :
    handleSendStart s = (s, none) ∧ handleSendEffects s.input o = [] := by
  constructor
  · simp [handleSendStart, h]
  · simp [handleSendEffects, h]

/-- C9 witness: a whitespace-only input buffer. -/
theorem submit_blank_noop_witness :
    handleSendStart { messages := [], input := "   ", isTyping := false, now := 7 }
        = ({ messages := [], input := "   ", isTyping := false, now := 7 }, none) ∧
      handleSendEffects "   " (.failure .nonError) = [] :=
  submit_blank_noop { messages := [], input := "   ", isTyping := false, now := 7 }
    (.failure .nonError) (by decide)

/-- C8: on an input that trims non-empty, the side effects of one
handleSend call occur in source order: user append with the trimmed text,
input-buffer clear, flag raise, then the request carrying the trimmed
text as its sole payload, and only then the exchange effects. -/
theorem submit_effect_order (inp : String) (o : FetchOutcome) (h : jsTrim inp ≠ "") :
    handleSendEffects inp o
        = [.appendMessage (jsTrim inp) .user, .setInput "", .setTyping true,
            .request (jsTrim inp)] ++ exchangeEffects o ∧
      (handleSendEffects inp o).take 4
        = [.appendMessage (jsTrim inp) .user, .setInput "", .setTyping true,
            .request (jsTrim inp)] := by
  refine ⟨?_, ?_⟩ <;> simp [handleSendEffects, h, List.take]

/-- C8 witness: the effect trace on the concrete input " hi ". -/
theorem submit_effect_order_witness :
    handleSendEffects " hi " (.success true (.parsed none (some "ok")))
        = [.appendMessage (jsTrim " hi ") .user, .setInput "", .setTyping true,
            .request (jsTrim " hi ")]
            ++ exchangeEffects (.success true (.parsed none (some "ok"))) ∧
      (handleSendEffects " hi " (.success true (.parsed none (some "ok")))).take 4
        = [.appendMessage (jsTrim " hi ") .user, .setInput "", .setTyping true,
            .request (jsTrim " hi ")] :=
  submit_effect_order " hi " (.success true (.parsed none (some "ok"))) (by decide)

end Widget

namespace Widget

/-- C2: every submit on an input that trims non-empty appends exactly one
user entry carrying the trimmed text and, once the exchange settles,
exactly one further entry whose sender is bot or error — never zero and
never more than one of each, whatever the outcome. -/
theorem submit_one_user_one_reply (s : ChatState) (o : FetchOutcome) (n : Nat)
    (h : jsTrim s.input ≠ "") :
    ∃ u r, (handleSendRun s o n).messages = s.messages ++ [u, r] ∧
      u.sender = .user ∧ u.text = jsTrim s.input ∧
      (r.sender = .bot ∨ r.sender = .error) := by
  refine ⟨{ id := s.now, text := jsTrim s.input, sender := .user, timestamp := s.now },
    { id := n, text := replyText o, sender := replySender o, timestamp := n },
    ?_, rfl, rfl, replySender_bot_or_error o⟩
  rw [handleSendRun_eq s o n h]

/-- C2 witness: a successful exchange on the concrete input "hello". -/
theorem submit_one_user_one_reply_witness :
    ∃ u r, (handleSendRun { messages := [], input := "hello", isTyping := false, now := 5 }
        (.success true (.parsed none (some "Hello! How can I help you today?"))) 6).messages
        = [u, r] ∧ u.sender = .user ∧ u.text = jsTrim "hello" ∧
      (r.sender = .bot ∨ r.sender = .error) :=
  submit_one_user_one_reply { messages := [], input := "hello", isTyping := false, now := 5 }
    (.success true (.parsed none (some "Hello! How can I help you today?"))) 6 (by decide)

/-- C3: after every settled exchange initiated by submit, the
awaiting-reply flag is false, on every exit path. -/
theorem submit_clears_flag (s : ChatState) (o : FetchOutcome) (n : Nat)
    (h : jsTrim s.input ≠ "") :
    (handleSendRun s o n).isTyping = false := by
  rw [handleSendRun_eq s o n h]

/-- C3 witness: the flag after a concrete failed exchange. -/
theorem submit_clears_flag_witness :
    (handleSendRun { messages := [], input := "x", isTyping := false, now := 2 }
      (.failure .nonError) 3).isTyping = false :=
  submit_clears_flag { messages := [], input := "x", isTyping := false, now := 2 }
    (.failure .nonError) 3 (by decide)

end Widget

namespace Widget

/-- C4 fails on the code: entry ids come from the Date.now reading, so
two entries created within the same millisecond share an id.  The state
reached by typing "hello", submitting, and having the exchange settle
within the millisecond it started is reachable, and its transcript then
carries the id 1000 twice — the id list is not duplicate-free. -/
theorem id_collision_same_millisecond :
    Reachable (exchangeRun
        (handleSendStart { messages := [], input := "hello", isTyping := false, now := 1000 }).1
        (.success true (.parsed none (some "Hello! How can I help you today?")))) ∧
      ((exchangeRun
        (handleSendStart { messages := [], input := "hello", isTyping := false, now := 1000 }).1
        (.success true (.parsed none (some "Hello! How can I help you today?")))).messages.map
        Message.id) = [1000, 1000] ∧
      ¬ ((exchangeRun
        (handleSendStart { messages := [], input := "hello", isTyping := false, now := 1000 }).1
        (.success true (.parsed none (some "Hello! How can I help you today?")))).messages.map
        Message.id).Nodup := by
  refine ⟨⟨1000, ?_⟩, by decide, by decide⟩
  exact Relation.ReflTransGen.tail
    (Relation.ReflTransGen.tail
      (Relation.ReflTransGen.tail Relation.ReflTransGen.refl (Step.edit _ "hello" rfl))
      (Step.send _))
    (Step.settle _ (.success true (.parsed none (some "Hello! How can I help you today?")))
      (by decide))

/-- C5 as stated fails: a network failure rejects the fetch with a
TypeError, which is an Error instance, so the appended text is the thrown
message (in a browser, "Failed to fetch"), not the generic fallback
text. -/
theorem network_failure_not_generic :
    ((handleSendRun { messages := [], input := "hello", isTyping := false, now := 0 }
        (.failure (.errInstance "Failed to fetch")) 1).messages.map Message.text
      = ["hello", "Failed to fetch"]) ∧
    ((handleSendRun { messages := [], input := "hello", isTyping := false, now := 0 }
        (.failure (.errInstance "Failed to fetch")) 1).messages.map Message.sender
      = [.user, .error]) ∧
    "Failed to fetch" ≠ "Sorry, something went wrong. Please try again." := by
  refine ⟨by decide, by decide, by decide⟩

/-- C5 amended: when the fetch rejects, the transcript gains exactly one
error entry whose text is the thrown error message when the thrown value
is an Error instance and the generic fallback text otherwise, and the
awaiting-reply flag returns to false. -/
theorem transport_failure_one_error_entry (s : ChatState) (t : Thrown) (n : Nat)
    (h : jsTrim s.input ≠ "") :
    ∃ u r, (handleSendRun s (.failure t) n).messages = s.messages ++ [u, r] ∧
      u.sender = .user ∧ r.sender = .error ∧ r.text = catchText t ∧
      (handleSendRun s (.failure t) n).isTyping = false := by
  refine ⟨{ id := s.now, text := jsTrim s.input, sender := .user, timestamp := s.now },
    { id := n, text := replyText (.failure t), sender := replySender (.failure t),
      timestamp := n },
    ?_, rfl, rfl, rfl, ?_⟩ <;> rw [handleSendRun_eq _ _ _ h]

/-- C5 amended witness: a thrown non-Error value yields the generic
fallback text. -/
theorem transport_failure_one_error_entry_witness :
    ∃ u r, (handleSendRun { messages := [], input := " hi ", isTyping := false, now := 3 }
        (.failure .nonError) 4).messages = [u, r] ∧
      u.sender = .user ∧ r.sender = .error ∧ r.text = catchText .nonError ∧
      (handleSendRun { messages := [], input := " hi ", isTyping := false, now := 3 }
        (.failure .nonError) 4).isTyping = false :=
  transport_failure_one_error_entry { messages := [], input := " hi ", isTyping := false, now := 3 }
    .nonError 4 (by decide)

end Widget

namespace Widget

/-- C6: in every reachable state with the awaiting-reply flag up, a
further handleSend invocation is a no-op: the state (transcript
included) is unchanged and no request is issued, so at most one exchange
is ever in flight. -/
theorem second_submit_rejected (s : ChatState) (hr : Reachable s) (ht : s.isTyping = true) :
    handleSendStart s = (s, none) := by
  have h : s.input = "" := reachable_typing_input_empty hr ht
  have hb : jsTrim s.input = "" := by rw [h]; rfl
  simp [handleSendStart, hb]

/-- C6 witness: the state reached by typing "hi" and submitting once;
while that exchange is in flight a second invocation changes nothing. -/
theorem second_submit_rejected_witness :
    handleSendStart (handleSendStart
        { messages := [], input := "hi", isTyping := false, now := 0 }).1
      = ((handleSendStart
        { messages := [], input := "hi", isTyping := false, now := 0 }).1, none) := by
  refine second_submit_rejected _ ⟨0, ?_⟩ (by decide)
  exact Relation.ReflTransGen.tail
    (Relation.ReflTransGen.tail Relation.ReflTransGen.refl (Step.edit _ "hi" rfl))
    (Step.send _)

/-- C10: a non-ok response whose body parses with an absent or empty
error field yields exactly one error entry reading "Failed to get
response", while the generic catch-all text arises from the catch clause
only for a thrown value that is not an Error instance — an Error
instance carries its own message through unchanged. -/
theorem non_ok_blank_error_fallback (s : ChatState) (e resp : Option String) (n : Nat)
    (m : String) (h : jsTrim s.input ≠ "") (he : jsTruthy e = false) :
    (∃ u r, (handleSendRun s (.success false (.parsed e resp)) n).messages
        = s.messages ++ [u, r] ∧ r.sender = .error ∧ r.text = "Failed to get response") ∧
      catchText (.errInstance m) = m ∧
      catchText .nonError = "Sorry, something went wrong. Please try again." := by
  refine ⟨⟨{ id := s.now, text := jsTrim s.input, sender := .user, timestamp := s.now },
    { id := n, text := replyText (.success false (.parsed e resp)),
      sender := replySender (.success false (.parsed e resp)), timestamp := n },
    ?_, rfl, ?_⟩, rfl, rfl⟩
  · rw [handleSendRun_eq _ _ _ h]
  · simp [replyText, he]

/-- C10 witness: a 500-style response whose error field is the empty
string. -/
theorem non_ok_blank_error_fallback_witness :
    (∃ u r, (handleSendRun { messages := [], input := "error", isTyping := false, now := 9 }
        (.success false (.parsed (some "") none)) 10).messages
        = [u, r] ∧ r.sender = .error ∧ r.text = "Failed to get response") ∧
      catchText (.errInstance "boom") = "boom" ∧
      catchText .nonError = "Sorry, something went wrong. Please try again." :=
  non_ok_blank_error_fallback { messages := [], input := "error", isTyping := false, now := 9 }
    (some "") none 10 "boom" (by decide) (by decide)

end Widget
